import Mathlib

/-!
# Verification of the fayec websocket transport core

Shallow embedding of the websocket transport (`Websocket` in the
`websocket` package) of this Bayeux-style pub/sub client: connection
lifecycle (`Init`, `Handshake`, `Connect`, `Disconnect`), the read-dispatch
loop (one iteration = `readStep`), the subscription registry, the
publish/publish-response path, and the extension (message transform)
pipeline.

Side effects are made explicit:
* the mutable `Websocket` struct is threaded as a value;
* writes to the socket, pushes into subscription mailboxes, mailbox
  closes, and publish-response callback invocations are recorded as an
  `Effect` list (mailboxes and callbacks are identified by numeric tags,
  standing for Go channel / function identities);
* socket reads are supplied as explicit inputs (`Except` of a read error
  or the received batch);
* Go runtime faults (index out of range, explicit `panic`, assignment to
  an entry in a nil map) are a `Halt` value;
* the `uint64` message-id counter is a `Nat` reduced mod `2 ^ 64`, and
  `strconv.Itoa(int(v))` interprets it as a signed 64-bit value.
-/

namespace FayeWS

/-- Modelled from the spec: the server `advice` field — a structured
reconnect hint (retry policy, timeout, interval).  The `message` package
carrying the Go `Advise` struct is not part of the sources here. -/
structure Advise where
  reconnect : String := ""
  interval : Int := 0
  timeout : Int := 0
  deriving DecidableEq, Repr

/-- Modelled from the spec: one protocol frame (`message.Message`), with
the fields listed in the data-model section: channel, id, clientId, data
(opaque payload, rendered as a `String`, "" meaning absent), successful,
error (optional descriptive string, "" meaning absent), advice,
subscription, and the handshake/connect negotiation fields. -/
structure Message where
  channel : String := ""
  version : String := ""
  supportedConnectionTypes : List String := []
  connectionType : String := ""
  clientId : String := ""
  advice : Option Advise := none
  subscription : String := ""
  error : String := ""
  id : String := ""
  successful : Bool := false
  data : String := ""
  deriving DecidableEq, Repr

/-- Modelled from the spec: `Message.GetError` — the error field is an
optional descriptive string, present iff non-empty. -/
def Message.GetError (m : Message) : Option String :=
  if m.error = "" then none else some m.error

/-- An extension: a transform over one mutable message (`message.Extension`). -/
abbrev Extension := Message → Message

/-- Modelled from the spec: `transport.Options` — the connection URL plus
the two ordered transform lists (inbound and outbound), configured once
at connection setup.  (The `transport` package version matching this
websocket file is not among the sources; the copy present declares the
same `Url`/extension fields in an older single-extension form.) -/
structure Options where
  Url : String := ""
  InExt : List Extension := []
  OutExt : List Extension := []

def transportName : String := "websocket"

/-- Modelled from the spec: reserved control path for handshake. -/
def MetaHandshake : String := "/meta/handshake"

/-- Modelled from the spec: reserved control path for connect. -/
def MetaConnect : String := "/meta/connect"

/-- Modelled from the spec: reserved control path for disconnect. -/
def MetaDisconnect : String := "/meta/disconnect"

/-- Modelled from the spec: reserved control path for subscribe. -/
def MetaSubscribe : String := "/meta/subscribe"

/-- Modelled from the spec: reserved control path for unsubscribe. -/
def MetaUnsubscribe : String := "/meta/unsubscribe"

/-- The five reserved control channels. -/
def metaChannels : List String :=
  [MetaHandshake, MetaConnect, MetaDisconnect, MetaSubscribe, MetaUnsubscribe]

/-- Modelled from the spec: `transport.IsMetaMessage` — a channel is a
control channel iff it matches one of the five reserved paths; any other
channel is an application channel. -/
def IsMetaMessage (m : Message) : Bool :=
  metaChannels.contains m.channel

/-- A Go map that may be nil: `none` is the nil map, `some l` an
initialized map represented as an association list. -/
def GoMap := Option (List (String × Nat))

/-- Reading from a Go map; reading from a nil map yields the zero value
(here: no entry). -/
def mapLookup (m : Option (List (String × Nat))) (k : String) : Option Nat :=
  match m with
  | none => none
  | some l => (l.find? (fun p => p.1 = k)).map Prod.snd

/-- Writing to a Go map; writing to a nil map is a runtime panic,
signalled by `Except.error`. -/
def mapInsert (m : Option (List (String × Nat))) (k : String) (v : Nat) :
    Except Unit (List (String × Nat)) :=
  match m with
  | none => Except.error ()
  | some l => Except.ok ((k, v) :: l.filter (fun p => ¬ p.1 = k))

/-- `delete` on a Go map; deleting from a nil map is a no-op. -/
def mapDelete (m : Option (List (String × Nat))) (k : String) :
    Option (List (String × Nat)) :=
  match m with
  | none => none
  | some l => some (l.filter (fun p => ¬ p.1 = k))

/-- The `Websocket` transport struct.  `msgID` is the value behind the
`*uint64` counter; `subs` and `onPublishResponse` are the two (nilable)
registries; `nextMailbox` allocates fresh mailbox identities (Go channel
values created by `make(chan *message.Message)`).  The socket handle and
`stopCh` live outside the model: writes are effects, reads are inputs. -/
structure Websocket where
  TransportOpts : Options := {}
  clientID : String := ""
  msgID : Nat := 0
  advice : Option Advise := none
  subs : Option (List (String × Nat)) := none
  onPublishResponse : Option (List (String × Nat)) := none
  nextMailbox : Nat := 0

/-- The Go zero value of the `Websocket` struct (both registries nil). -/
def zeroWebsocket : Websocket := {}

/-- A Go runtime fault. -/
inductive Halt where
  | panicIndexOutOfRange
  | panicBug (text : String)
  | panicNilMapWrite
  deriving DecidableEq, Repr

/-- An observable side effect of one operation. -/
inductive Effect where
  | send (frame : Message)
  | mailboxPush (mailbox : Nat) (msg : Message)
  | mailboxClose (mailbox : Nat)
  | invokeCallback (callback : Nat) (msg : Message)
  | startRead
  | stopSignal
  deriving DecidableEq, Repr

/-- The messages written to the socket among a list of effects. -/
def sends (effs : List Effect) : List Message :=
  effs.filterMap (fun e =>
    match e with
    | Effect.send m => some m
    | _ => none)

/-- `applyOutExtensions`: run the outbound transform list, in order. -/
def applyOutExtensions (opts : Options) (m : Message) : Message :=
  opts.OutExt.foldl (fun acc f => f acc) m

/-- `applyInExtensions`: run the inbound transform list, in order. -/
def applyInExtensions (opts : Options) (m : Message) : Message :=
  opts.InExt.foldl (fun acc f => f acc) m

/-- `sendMessage`, the single shared send primitive: apply the outbound
extension pipeline, then serialize the frame (as a one-element array)
onto the socket. -/
def sendMessage (w : Websocket) (m : Message) : Effect :=
  Effect.send (applyOutExtensions w.TransportOpts m)

def U64 : Nat := 2 ^ 64

def I63 : Nat := 2 ^ 63

/-- `atomic.AddUint64(w.msgID, 1)`: the incremented counter value. -/
def addUint64 (c : Nat) : Nat := (c + 1) % U64

/-- `int(v)` for a `uint64` value on a 64-bit platform: reinterpret as a
signed 64-bit integer. -/
def int64ofUint64 (v : Nat) : Int :=
  if v < I63 then (v : Int) else (v : Int) - (U64 : Int)

/-- `strconv.Itoa` on the (signed) counter value. -/
def itoa (i : Int) : String := toString i

/-- `nextMsgID`: bump the counter and render the new value. -/
def nextMsgID (w : Websocket) : String × Websocket :=
  (itoa (int64ofUint64 (addUint64 w.msgID)), { w with msgID := addUint64 w.msgID })

/-- `Init`: store the options, reset the message-id counter, create the
subscription registry, then dial.  The dial outcome is the explicit
`dialResult` input: on failure the error is returned.  Note that `Init`
never touches `onPublishResponse`. -/
def Init (w : Websocket) (options : Options) (dialResult : Except String Unit) :
    Websocket × Option String :=
  let w1 := { w with TransportOpts := options, msgID := 0, subs := some [] }
  match dialResult with
  | Except.error e => (w1, some e)
  | Except.ok _ => (w1, none)

/-- The state of a `Websocket` right after a successful `Init` on a fresh
(zero-valued) struct. -/
def initState (options : Options) : Websocket :=
  (Init zeroWebsocket options (Except.ok ())).1

/-- The handshake request frame. -/
def hsFrame : Message :=
  { channel := MetaHandshake, version := "1.0",
    supportedConnectionTypes := [transportName] }

/-- Result of `Handshake`: a possible runtime fault, the struct after the
call, the effects, and the Go `error` return value (`none` = nil). -/
structure HSRes where
  halt : Option Halt
  state : Websocket
  effects : List Effect
  ret : Option String

/-- `Handshake`: send the handshake frame (through `sendMessage`), then
perform a direct blocking read of the response batch (the read loop does
not exist yet), take its first element without a bounds check, apply the
inbound extension pipeline inline, and inspect the result.  In the
error-response branch the source returns `err` — which is necessarily nil
at that point (the read succeeded) — so the returned error is `none` in
both branches; on the non-error branch the returned client id is stored
(with no check that it is non-empty). -/
def Handshake (w : Websocket) (readResult : Except String (List Message)) : HSRes :=
  let sent := sendMessage w hsFrame
  let out : Option Halt × Websocket × Option String :=
    match readResult with
    | Except.error e => (none, w, some e)
    | Except.ok hsResps =>
      match hsResps with
      | [] => (some Halt.panicIndexOutOfRange, w, none)
      | resp0 :: _ =>
        let resp := applyInExtensions w.TransportOpts resp0
        (none,
         (if (resp.GetError).isSome then w else { w with clientID := resp.clientId }),
         none)
  ⟨out.1, out.2.1, [sent], out.2.2⟩

/-- Result of an operation that cannot fault and returns no value. -/
structure OpRes where
  state : Websocket
  effects : List Effect

/-- `Connect`: build the connect frame with a fresh id, start the
read-dispatch worker, send the frame. -/
def Connect (w : Websocket) : OpRes :=
  let idw := nextMsgID w
  let m : Message :=
    { channel := MetaConnect, clientId := w.clientID,
      connectionType := transportName, id := idw.1 }
  ⟨idw.2, [Effect.startRead, sendMessage w m]⟩

/-- `Disconnect`: build the disconnect frame with a fresh id, fire the
one-shot stop signal for the read loop, send the frame. -/
def Disconnect (w : Websocket) : OpRes :=
  let idw := nextMsgID w
  let m : Message :=
    { channel := MetaDisconnect, clientId := w.clientID, id := idw.1 }
  ⟨idw.2, [Effect.stopSignal, sendMessage w m]⟩

/-- Result of `Subscribe`'s send-and-register phase: possible fault, the
struct, the effects, and the identity of the freshly made mailbox. -/
structure SubRes where
  halt : Option Halt
  state : Websocket
  effects : List Effect
  mailbox : Nat

/-- `Subscribe` (send-and-register phase): build the subscribe frame with
a fresh id, send it, make a fresh mailbox and register it in `subs` under
the subscription name.  The subsequent blocking consume loop over the
mailbox is the separate `subscribeDrain`. -/
def Subscribe (w : Websocket) (subscription : String) : SubRes :=
  let idw := nextMsgID w
  let m : Message :=
    { channel := MetaSubscribe, clientId := w.clientID,
      subscription := subscription, id := idw.1 }
  let e := sendMessage w m
  let w1 := idw.2
  let mb := w1.nextMailbox
  let w2 := { w1 with nextMailbox := mb + 1 }
  let st : Option Halt × Websocket :=
    match mapInsert w2.subs subscription mb with
    | Except.error _ => (some Halt.panicNilMapWrite, w2)
    | Except.ok l => (none, { w2 with subs := some l })
  ⟨st.1, st.2, [e], mb⟩

/-- `Subscribe`'s blocking consume loop, run over the FIFO list of
messages the mailbox delivers before being closed: on the first message
whose `GetError` is non-nil that error is returned and consumption stops;
every other message has `onMessage` invoked with its data; when the
mailbox closes with no error seen, nil is returned.  The result is the
list of payloads handed to `onMessage` and the returned error. -/
def subscribeDrain (delivered : List Message) : List String × Option String :=
  match delivered with
  | [] => ([], none)
  | m :: rest =>
    match m.GetError with
    | some e => ([], some e)
    | none =>
      let r := subscribeDrain rest
      (m.data :: r.1, r.2)

/-- `Unsubscribe`: build the unsubscribe frame with a fresh id and send
it.  No acknowledgment is read and the subscription registry is not
touched. -/
def Unsubscribe (w : Websocket) (subscription : String) : OpRes :=
  let idw := nextMsgID w
  let m : Message :=
    { channel := MetaUnsubscribe, subscription := subscription,
      clientId := w.clientID, id := idw.1 }
  ⟨idw.2, [sendMessage w m]⟩

/-- Result of `Publish`: the struct, the effects, and the returned id. -/
structure PubRes where
  state : Websocket
  effects : List Effect
  id : String

/-- `Publish`: allocate the next message id, build the frame, send it,
and return the id. -/
def Publish (w : Websocket) (subscription : String) (data : String) : PubRes :=
  let idw := nextMsgID w
  let m : Message :=
    { channel := subscription, data := data, clientId := w.clientID, id := idw.1 }
  ⟨idw.2, [sendMessage w m], idw.1⟩

/-- Result of `OnPublishResponse`: possible fault and the struct. -/
structure RegRes where
  halt : Option Halt
  state : Websocket

/-- `OnPublishResponse`: register (overwriting any prior entry) a
publish-response callback for a channel.  Since `Init` never creates this
map, a write on a fresh connection is a nil-map assignment fault. -/
def OnPublishResponse (w : Websocket) (subscription : String) (callback : Nat) : RegRes :=
  match mapInsert w.onPublishResponse subscription callback with
  | Except.error _ => ⟨some Halt.panicNilMapWrite, w⟩
  | Except.ok l => ⟨none, { w with onPublishResponse := some l }⟩

/-- `handleAdvise`: store the advice (the `atomic.Value` write). -/
def handleAdvise (w : Websocket) (a : Advise) : Websocket :=
  { w with advice := some a }

/-- The advice-handling prefix of one read-loop iteration: if the frame
carries advice, overwrite the stored advice. -/
def adviceStep (w : Websocket) (msg : Message) : Websocket :=
  match msg.advice with
  | some a => handleAdvise w a
  | none => w

/-- Result of one read-loop iteration. -/
structure ReadRes where
  halt : Option Halt
  state : Websocket
  effects : List Effect

/-- The dispatch body of one read-loop iteration, applied to the first
element of the received batch.  Mirrors the source:
* store advice if present;
* meta frames: only an unsuccessful `/meta/subscribe` does anything —
  look up the mailbox under the frame's `subscription` field (panic if
  absent), inject the descriptive error only when the frame already
  carries an error, push the frame, close the mailbox, and `delete` the
  registry entry under the frame's `channel` field (which at this point
  is `/meta/subscribe`, not the subscription name);
* event deliveries (an application-channel frame with an active mailbox;
  classification modelled from the spec): apply the inbound extension
  pipeline, then push into the mailbox;
* otherwise (publish acknowledgment): invoke the registered callback, if
  any, with the frame as-is. -/
def dispatch (w : Websocket) (msg : Message) : ReadRes :=
  let wa := adviceStep w msg
  if IsMetaMessage msg then
    if msg.channel = MetaSubscribe then
      if msg.successful then ⟨none, wa, []⟩
      else
        match mapLookup w.subs msg.subscription with
        | none =>
          ⟨some (Halt.panicBug
              ("BUG: subscription not registered `" ++ msg.subscription ++ "`")),
           wa, []⟩
        | some mb =>
          let out :=
            if (msg.GetError).isSome then
              { msg with error := "susbscription `" ++ msg.subscription ++ "` failed" }
            else msg
          ⟨none, { wa with subs := mapDelete w.subs msg.channel },
           [Effect.mailboxPush mb out, Effect.mailboxClose mb]⟩
    else ⟨none, wa, []⟩
  else
    match mapLookup w.subs msg.channel with
    | some mb =>
      ⟨none, wa, [Effect.mailboxPush mb (applyInExtensions w.TransportOpts msg)]⟩
    | none =>
      match mapLookup w.onPublishResponse msg.channel with
      | some cb => ⟨none, wa, [Effect.invokeCallback cb msg]⟩
      | none => ⟨none, wa, []⟩

/-- One iteration of the read loop after a successful socket read:
dereference the first element of the batch (a fault when the batch is
empty) and dispatch it; the remaining elements are never inspected. -/
def readStep (w : Websocket) (payload : List Message) : ReadRes :=
  match payload with
  | [] => ⟨some Halt.panicIndexOutOfRange, w, []⟩
  | msg :: _ => dispatch w msg

/-- The client operations whose interleaving allocates message ids, for
reasoning about id sequences on one connection. -/
inductive ClientOp where
  | publishOp (channel : String) (data : String)
  | subscribeOp (channel : String)
  | connectOp
  | disconnectOp
  | unsubscribeOp (channel : String)
  | handshakeOp (readResult : Except String (List Message))

/-- Run a sequence of client operations, collecting for every `Publish`
the returned id string together with its numeric (signed 64-bit) value. -/
def runPublishIds (w : Websocket) : List ClientOp → List (String × Int)
  | [] => []
  | ClientOp.publishOp ch d :: rest =>
    let r := Publish w ch d
    (r.id, int64ofUint64 r.state.msgID) :: runPublishIds r.state rest
  | ClientOp.subscribeOp ch :: rest => runPublishIds (Subscribe w ch).state rest
  | ClientOp.connectOp :: rest => runPublishIds (Connect w).state rest
  | ClientOp.disconnectOp :: rest => runPublishIds (Disconnect w).state rest
  | ClientOp.unsubscribeOp ch :: rest => runPublishIds (Unsubscribe w ch).state rest
  | ClientOp.handshakeOp rr :: rest => runPublishIds (Handshake w rr).state rest

/-! ## Concrete fixtures used by witnesses, counterexamples and evaluations -/

/-- Options with no extensions. -/
def O0 : Options := {}

/-- An inbound extension that tags every frame it is applied to. -/
def tagIn : Extension := fun m => { m with data := "tagged" }

/-- Options registering the tagging inbound extension. -/
def OTag : Options := { InExt := [tagIn] }

/-- A connection with one registered subscription mailbox for `/foo`. -/
def wFoo : Websocket := { initState O0 with subs := some [("/foo", 0)] }

/-- A subscribe nack for `/foo` carrying a server error. -/
def nackErr : Message :=
  { channel := MetaSubscribe, subscription := "/foo", successful := false,
    error := "denied" }

/-- A subscribe nack for `/foo` carrying no error string. -/
def nackPlain : Message :=
  { channel := MetaSubscribe, subscription := "/foo", successful := false }

/-- A freshly initialized connection with a leftover client id. -/
def wHS : Websocket := { initState O0 with clientID := "old" }

/-- A handshake response carrying a server error. -/
def hsRespErr : Message := { error := "hs failed", clientId := "c1" }

/-- A handshake response with no error and no client id. -/
def hsRespNoId : Message := { successful := true }

/-- A successful handshake response with client id `c9`. -/
def hsRespGood : Message := { clientId := "c9" }

/-- A connection with the tagging inbound extension, a mailbox for `/d`
and a publish-response callback for `/app`. -/
def wTag : Websocket :=
  { TransportOpts := OTag, subs := some [("/d", 5)],
    onPublishResponse := some [("/app", 7)] }

/-- A delivery frame for `/d`. -/
def evDel : Message := { channel := "/d" }

/-- A publish acknowledgment frame for `/app` (no registered mailbox). -/
def evAck : Message := { channel := "/app", successful := true }

/-- A connect acknowledgment frame. -/
def evConnAck : Message := { channel := MetaConnect, successful := true }

/-- A subscribe nack for `/d` with no error string. -/
def evNackPlain : Message :=
  { channel := MetaSubscribe, subscription := "/d", successful := false }

/-- A handshake response for the tagged connection. -/
def evHsResp : Message := { clientId := "c7" }

/-- A subscribe nack whose subscription has no registered mailbox. -/
def nackUnknown : Message :=
  { channel := MetaSubscribe, subscription := "/nope", successful := false }

/-- An interleaved operation sequence: three publishes with a connect and
a subscribe in between. -/
def opsW : List ClientOp :=
  [ClientOp.publishOp "/a" "x", ClientOp.connectOp,
   ClientOp.publishOp "/a" "y", ClientOp.subscribeOp "/b",
   ClientOp.publishOp "/b" "z"]

/-! ## Helper lemmas -/

theorem addUint64_of_lt (c : Nat) (h : c + 1 < I63) : addUint64 c = c + 1 := by
  have hU : I63 < U64 := by norm_num [I63, U64]
  exact Nat.mod_eq_of_lt (by omega)

theorem int64ofUint64_of_lt (v : Nat) (h : v < I63) :
    int64ofUint64 v = (v : Int) := by
  unfold int64ofUint64
  exact if_pos h

theorem Publish_state_msgID (w : Websocket) (ch d : String) :
    (Publish w ch d).state.msgID = addUint64 w.msgID := rfl

theorem Connect_state_msgID (w : Websocket) :
    (Connect w).state.msgID = addUint64 w.msgID := rfl

theorem Disconnect_state_msgID (w : Websocket) :
    (Disconnect w).state.msgID = addUint64 w.msgID := rfl

theorem Unsubscribe_state_msgID (w : Websocket) (ch : String) :
    (Unsubscribe w ch).state.msgID = addUint64 w.msgID := rfl

theorem Subscribe_state_msgID (w : Websocket) (ch : String) :
    (Subscribe w ch).state.msgID = addUint64 w.msgID := by
  unfold Subscribe
  dsimp only
  split <;> rfl

theorem Handshake_state_msgID (w : Websocket) (rr : Except String (List Message)) :
    (Handshake w rr).state.msgID = w.msgID := by
  unfold Handshake
  rcases rr with e | l
  · rfl
  · rcases l with _ | ⟨a, t⟩
    · rfl
    · dsimp only
      split <;> rfl

theorem dispatch_halt_cases (w : Websocket) (m : Message) :
    (dispatch w m).halt = none ∨
      ∃ s, (dispatch w m).halt = some (Halt.panicBug s) := by
  unfold dispatch
  dsimp only
  split
  · split
    · split
      · exact Or.inl rfl
      · split
        · exact Or.inr ⟨_, rfl⟩
        · exact Or.inl rfl
    · exact Or.inl rfl
  · split
    · exact Or.inl rfl
    · split
      · exact Or.inl rfl
      · exact Or.inl rfl

/-! ## Claim theorems -/

/-- C1 (evaluation at the failing input): on a subscribe nack for `/foo`
whose mailbox is registered, the read loop injects the descriptive error
(when the frame already carries one), pushes exactly that frame, and
closes the mailbox — but the registry entry for `/foo` is NOT removed:
the `delete` uses the frame's channel (`/meta/subscribe`) instead of its
subscription field, so it is a no-op.  A nack without an error string is
pushed with no error injected at all. -/
theorem c1_nack_registry_eval :
    readStep wFoo [nackErr] =
      ⟨none, wFoo,
       [Effect.mailboxPush 0 { nackErr with error := "susbscription `/foo` failed" },
        Effect.mailboxClose 0]⟩
  ∧ mapLookup (readStep wFoo [nackErr]).state.subs "/foo" = some 0
  ∧ readStep wFoo [nackPlain] =
      ⟨none, wFoo, [Effect.mailboxPush 0 nackPlain, Effect.mailboxClose 0]⟩ :=
  ⟨rfl, rfl, rfl⟩

/-- C2 (evaluation at the failing input): when the handshake response
carries an error, `Handshake` returns `err` — which is nil at that point —
so the caller sees no error; when the response carries an empty client
id, the empty id is stored and nil is returned; only the stored-id part
of the claim holds on the success path. -/
theorem c2_handshake_eval :
    Handshake wHS (Except.ok [hsRespErr]) = ⟨none, wHS, [Effect.send hsFrame], none⟩
  ∧ Handshake wHS (Except.ok [hsRespNoId]) =
      ⟨none, { wHS with clientID := "" }, [Effect.send hsFrame], none⟩
  ∧ Handshake wHS (Except.ok [hsRespGood]) =
      ⟨none, { wHS with clientID := "c9" }, [Effect.send hsFrame], none⟩ :=
  ⟨rfl, rfl, rfl⟩

/-- C3 (evaluation at the failing input): `Init` returns the dial error
exactly when the dial fails, and on success leaves the counter at zero
and the subscription registry empty — but the publish-response registry
is never created, so the first `OnPublishResponse` on the fresh
connection is a nil-map assignment fault rather than a success. -/
theorem c3_init_eval :
    (Init zeroWebsocket O0 (Except.error "dial failed")).2 = some "dial failed"
  ∧ (Init zeroWebsocket O0 (Except.ok ())).2 = none
  ∧ (initState O0).msgID = 0
  ∧ (initState O0).subs = some []
  ∧ (initState O0).onPublishResponse = none
  ∧ (OnPublishResponse (initState O0) "/chan" 0).halt = some Halt.panicNilMapWrite :=
  ⟨rfl, rfl, rfl, rfl, rfl, rfl⟩

/-- C4 (counterexample): with an inbound extension registered that tags
every frame it is applied to, a publish acknowledgment is handed to its
registered callback exactly as it came off the socket — untagged — so the
inbound pipeline is not applied to every frame taken off the socket by
the read loop. -/
theorem c4_counterexample :
    readStep wTag [evAck] = ⟨none, wTag, [Effect.invokeCallback 7 evAck]⟩
  ∧ evAck ≠ applyInExtensions wTag.TransportOpts evAck := by
  refine ⟨rfl, ?_⟩
  intro h
  exact absurd (congrArg Message.data h) (by decide)

/-- C4 (amended): the read loop applies the inbound extension pipeline
exactly once to event-delivery frames, immediately before the mailbox
push; control-channel responses and publish acknowledgments are routed
without any inbound-extension application; and the handshake response's
single inbound application happens inline inside `Handshake`. -/
theorem c4_inbound_pipeline (w : Websocket) (m resp : Message)
    (rest : List Message) (mb cb : Nat) :
    (IsMetaMessage m = false → mapLookup w.subs m.channel = some mb →
      readStep w (m :: rest) =
        ⟨none, adviceStep w m,
         [Effect.mailboxPush mb (applyInExtensions w.TransportOpts m)]⟩)
  ∧ (IsMetaMessage m = false → mapLookup w.subs m.channel = none →
      mapLookup w.onPublishResponse m.channel = some cb →
      readStep w (m :: rest) = ⟨none, adviceStep w m, [Effect.invokeCallback cb m]⟩)
  ∧ (m.channel = MetaConnect →
      readStep w (m :: rest) = ⟨none, adviceStep w m, []⟩)
  ∧ (m.channel = MetaSubscribe → m.successful = false → m.error = "" →
      mapLookup w.subs m.subscription = some mb →
      readStep w (m :: rest) =
        ⟨none, { adviceStep w m with subs := mapDelete w.subs m.channel },
         [Effect.mailboxPush mb m, Effect.mailboxClose mb]⟩)
  ∧ ((applyInExtensions w.TransportOpts resp).GetError = none →
      Handshake w (Except.ok (resp :: rest)) =
        ⟨none, { w with clientID := (applyInExtensions w.TransportOpts resp).clientId },
         [Effect.send (applyOutExtensions w.TransportOpts hsFrame)], none⟩) := by
  refine ⟨?_, ?_, ?_, ?_, ?_⟩
  · intro hmeta hsub
    show dispatch w m = _
    unfold dispatch
    rw [hmeta]
    simp [hsub]
  · intro hmeta hsub hcb
    show dispatch w m = _
    unfold dispatch
    rw [hmeta]
    simp [hsub, hcb]
  · intro hch
    have hm : IsMetaMessage m = true := by
      unfold IsMetaMessage metaChannels
      rw [hch]
      rfl
    have hns : ¬ m.channel = MetaSubscribe := by
      rw [hch]
      decide
    show dispatch w m = _
    unfold dispatch
    rw [hm]
    simp [hns]
  · intro hch hsucc herr hsub
    have hm : IsMetaMessage m = true := by
      unfold IsMetaMessage metaChannels
      rw [hch]
      rfl
    have hge : m.GetError = none := by
      unfold Message.GetError
      rw [herr]
      rfl
    show dispatch w m = _
    unfold dispatch
    rw [hm, hch, hsucc]
    simp [hsub, hge]
  · intro hge
    unfold Handshake
    dsimp only
    rw [hge]
    simp [sendMessage]

/-- C4 witness: concrete frames through the loop and the handshake. -/
theorem c4_inbound_pipeline_witness :
    readStep wTag [evDel] =
      ⟨none, adviceStep wTag evDel,
       [Effect.mailboxPush 5 (applyInExtensions wTag.TransportOpts evDel)]⟩
  ∧ readStep wTag [evAck] =
      ⟨none, adviceStep wTag evAck, [Effect.invokeCallback 7 evAck]⟩
  ∧ readStep wTag [evConnAck] = ⟨none, adviceStep wTag evConnAck, []⟩
  ∧ readStep wTag [evNackPlain] =
      ⟨none, { adviceStep wTag evNackPlain with
               subs := mapDelete wTag.subs evNackPlain.channel },
       [Effect.mailboxPush 5 evNackPlain, Effect.mailboxClose 5]⟩
  ∧ Handshake wTag (Except.ok [evHsResp]) =
      ⟨none,
       { wTag with clientID := (applyInExtensions wTag.TransportOpts evHsResp).clientId },
       [Effect.send (applyOutExtensions wTag.TransportOpts hsFrame)], none⟩ :=
  ⟨(c4_inbound_pipeline wTag evDel evHsResp [] 5 7).1 rfl rfl,
   (c4_inbound_pipeline wTag evAck evHsResp [] 5 7).2.1 rfl rfl rfl,
   (c4_inbound_pipeline wTag evConnAck evHsResp [] 5 7).2.2.1 rfl,
   (c4_inbound_pipeline wTag evNackPlain evHsResp [] 5 7).2.2.2.1 rfl rfl rfl rfl,
   (c4_inbound_pipeline wTag evDel evHsResp [] 5 7).2.2.2.2 rfl⟩

/-- C5: every outbound operation writes exactly one frame to the wire,
namely the frame it builds with the outbound extension pipeline applied
to it exactly once (all sends go through the shared `sendMessage`
primitive, which applies the pipeline immediately before serialization). -/
theorem c5_outbound_pipeline (w : Websocket) (ch d : String)
    (rr : Except String (List Message)) :
    sends (Handshake w rr).effects = [applyOutExtensions w.TransportOpts hsFrame]
  ∧ sends (Connect w).effects =
      [applyOutExtensions w.TransportOpts
        { channel := MetaConnect, clientId := w.clientID,
          connectionType := transportName, id := (nextMsgID w).1 }]
  ∧ sends (Disconnect w).effects =
      [applyOutExtensions w.TransportOpts
        { channel := MetaDisconnect, clientId := w.clientID, id := (nextMsgID w).1 }]
  ∧ sends (Subscribe w ch).effects =
      [applyOutExtensions w.TransportOpts
        { channel := MetaSubscribe, clientId := w.clientID, subscription := ch,
          id := (nextMsgID w).1 }]
  ∧ sends (Unsubscribe w ch).effects =
      [applyOutExtensions w.TransportOpts
        { channel := MetaUnsubscribe, subscription := ch, clientId := w.clientID,
          id := (nextMsgID w).1 }]
  ∧ sends (Publish w ch d).effects =
      [applyOutExtensions w.TransportOpts
        { channel := ch, data := d, clientId := w.clientID, id := (nextMsgID w).1 }] :=
  ⟨rfl, rfl, rfl, rfl, rfl, rfl⟩

/-- C7: `Unsubscribe` only bumps the message-id counter and sends the
unsubscribe frame (channel, client id, fresh id) through the outbound
pipeline; it performs no read and leaves the subscription registry —
in particular any mailbox entry for the channel — exactly as it was. -/
theorem c7_unsubscribe_frame_only (w : Websocket) (ch : String) :
    (Unsubscribe w ch).state = { w with msgID := addUint64 w.msgID }
  ∧ (Unsubscribe w ch).state.subs = w.subs
  ∧ mapLookup (Unsubscribe w ch).state.subs ch = mapLookup w.subs ch
  ∧ (Unsubscribe w ch).effects =
      [Effect.send (applyOutExtensions w.TransportOpts
        { channel := MetaUnsubscribe, subscription := ch, clientId := w.clientID,
          id := itoa (int64ofUint64 (addUint64 w.msgID)) })] :=
  ⟨rfl, rfl, rfl, rfl⟩

/-- C8: one read-loop iteration depends only on the first element of the
received batch: the iteration on `m :: rest` is literally the iteration
on `[m]`, whatever `rest` is — the remaining elements are dropped with no
effect on the registries, the advice store, or any mailbox. -/
theorem c8_first_element_only (w : Websocket) (m : Message) (rest : List Message) :
    readStep w (m :: rest) = readStep w [m] := rfl

/-- C9: an unsuccessful subscribe-control frame whose subscription has no
registered mailbox makes the read loop panic with the `BUG:` message
instead of continuing. -/
theorem c9_unregistered_nack_panics (w : Websocket) (m : Message)
    (rest : List Message) (h1 : m.channel = MetaSubscribe)
    (h2 : m.successful = false)
    (h3 : mapLookup w.subs m.subscription = none) :
    readStep w (m :: rest) =
      ⟨some (Halt.panicBug
          ("BUG: subscription not registered `" ++ m.subscription ++ "`")),
       adviceStep w m, []⟩ := by
  have hm : IsMetaMessage m = true := by
    unfold IsMetaMessage metaChannels
    rw [h1]
    rfl
  show dispatch w m = _
  unfold dispatch
  rw [hm, h1, h2]
  simp [h3]

/-- C9 witness: a nack for the unregistered `/nope` panics. -/
theorem c9_unregistered_nack_panics_witness :
    readStep (initState O0) [nackUnknown] =
      ⟨some (Halt.panicBug
          ("BUG: subscription not registered `" ++ nackUnknown.subscription ++ "`")),
       adviceStep (initState O0) nackUnknown, []⟩ :=
  c9_unregistered_nack_panics (initState O0) nackUnknown [] rfl rfl rfl

/-- C10: the first-element access of a received batch is out of bounds
exactly for an empty batch, both in the read loop and in `Handshake`'s
direct response read; for a non-empty batch neither path faults on the
index. -/
theorem c10_first_element_bounds (w : Websocket) (m : Message)
    (rest : List Message) :
    (readStep w []).halt = some Halt.panicIndexOutOfRange
  ∧ (Handshake w (Except.ok [])).halt = some Halt.panicIndexOutOfRange
  ∧ (readStep w (m :: rest)).halt ≠ some Halt.panicIndexOutOfRange
  ∧ (Handshake w (Except.ok (m :: rest))).halt = none := by
  refine ⟨rfl, rfl, ?_, rfl⟩
  show (dispatch w m).halt ≠ some Halt.panicIndexOutOfRange
  rcases dispatch_halt_cases w m with h | ⟨s, h⟩ <;> simp [h]

/-- Soundness of collected publish ids: starting from counter value
`w.msgID`, as long as the number of remaining operations keeps every
allocation below `2 ^ 63`, every collected id string is the decimal
rendering of its numeric value, every numeric value exceeds the starting
counter, and the numeric values are strictly increasing. -/
theorem runPublishIds_sound (ops : List ClientOp) : ∀ w : Websocket,
    w.msgID + ops.length < I63 →
    (∀ p ∈ runPublishIds w ops, ((w.msgID : Int) < p.2 ∧ p.1 = itoa p.2)) ∧
    ((runPublishIds w ops).map Prod.snd).Pairwise (fun a b => a < b) := by
  induction ops with
  | nil =>
    intro w h
    constructor
    · intro p hp
      simp [runPublishIds] at hp
    · simp [runPublishIds]
  | cons op rest ih =>
    intro w h
    have hlen : w.msgID + 1 < I63 := by
      simp only [List.length_cons] at h
      omega
    have hadd : addUint64 w.msgID = w.msgID + 1 := addUint64_of_lt _ hlen
    have hcast : (w.msgID : Int) < ((w.msgID + 1 : Nat) : Int) := by
      exact_mod_cast Nat.lt_succ_self w.msgID
    cases op with
    | publishOp ch d =>
      have hms : (Publish w ch d).state.msgID = w.msgID + 1 := by
        rw [Publish_state_msgID, hadd]
      have hih := ih (Publish w ch d).state
        (by rw [hms]; simp only [List.length_cons] at h; omega)
      have hv : int64ofUint64 ((Publish w ch d).state.msgID) = ((w.msgID + 1 : Nat) : Int) := by
        rw [hms, int64ofUint64_of_lt _ hlen]
      constructor
      · intro p hp
        simp only [runPublishIds, List.mem_cons] at hp
        rcases hp with rfl | hp
        · exact ⟨by rw [hv]; exact hcast, rfl⟩
        · have h2 := hih.1 p hp
          refine ⟨?_, h2.2⟩
          have h3 := h2.1
          rw [hms] at h3
          exact lt_trans hcast h3
      · simp only [runPublishIds, List.map_cons, List.pairwise_cons]
        constructor
        · intro b hb
          simp only [List.mem_map] at hb
          obtain ⟨p, hp, rfl⟩ := hb
          have h2 := (hih.1 p hp).1
          rw [hms] at h2
          rw [hv]
          exact h2
        · exact hih.2
    | subscribeOp ch =>
      have hms : (Subscribe w ch).state.msgID = w.msgID + 1 := by
        rw [Subscribe_state_msgID, hadd]
      have hih := ih (Subscribe w ch).state
        (by rw [hms]; simp only [List.length_cons] at h; omega)
      constructor
      · intro p hp
        simp only [runPublishIds] at hp
        have h2 := hih.1 p hp
        refine ⟨?_, h2.2⟩
        have h3 := h2.1
        rw [hms] at h3
        exact lt_trans hcast h3
      · simpa [runPublishIds] using hih.2
    | connectOp =>
      have hms : (Connect w).state.msgID = w.msgID + 1 := by
        rw [Connect_state_msgID, hadd]
      have hih := ih (Connect w).state
        (by rw [hms]; simp only [List.length_cons] at h; omega)
      constructor
      · intro p hp
        simp only [runPublishIds] at hp
        have h2 := hih.1 p hp
        refine ⟨?_, h2.2⟩
        have h3 := h2.1
        rw [hms] at h3
        exact lt_trans hcast h3
      · simpa [runPublishIds] using hih.2
    | disconnectOp =>
      have hms : (Disconnect w).state.msgID = w.msgID + 1 := by
        rw [Disconnect_state_msgID, hadd]
      have hih := ih (Disconnect w).state
        (by rw [hms]; simp only [List.length_cons] at h; omega)
      constructor
      · intro p hp
        simp only [runPublishIds] at hp
        have h2 := hih.1 p hp
        refine ⟨?_, h2.2⟩
        have h3 := h2.1
        rw [hms] at h3
        exact lt_trans hcast h3
      · simpa [runPublishIds] using hih.2
    | unsubscribeOp ch =>
      have hms : (Unsubscribe w ch).state.msgID = w.msgID + 1 := by
        rw [Unsubscribe_state_msgID, hadd]
      have hih := ih (Unsubscribe w ch).state
        (by rw [hms]; simp only [List.length_cons] at h; omega)
      constructor
      · intro p hp
        simp only [runPublishIds] at hp
        have h2 := hih.1 p hp
        refine ⟨?_, h2.2⟩
        have h3 := h2.1
        rw [hms] at h3
        exact lt_trans hcast h3
      · simpa [runPublishIds] using hih.2
    | handshakeOp rr =>
      have hms : (Handshake w rr).state.msgID = w.msgID := Handshake_state_msgID w rr
      have hih := ih (Handshake w rr).state
        (by rw [hms]; simp only [List.length_cons] at h; omega)
      constructor
      · intro p hp
        simp only [runPublishIds] at hp
        have h2 := hih.1 p hp
        rw [hms] at h2
        exact h2
      · simpa [runPublishIds] using hih.2

/-- C6: on one connection (fresh `Init`), across any operation sequence
with fewer than `2 ^ 63` operations, the ids returned by the `Publish`
calls — each allocated from the connection's single counter, with the
interleaved allocations of the other operations in between — are
numerically strictly increasing and pairwise distinct, and each returned
id string is the decimal rendering of its numeric value. -/
theorem c6_publish_ids_increasing (ops : List ClientOp) (opts : Options)
    (h : ops.length < I63) :
    ((runPublishIds (initState opts) ops).map Prod.snd).Pairwise (fun a b => a < b)
  ∧ ((runPublishIds (initState opts) ops).map Prod.snd).Pairwise (fun a b => a ≠ b)
  ∧ ∀ p ∈ runPublishIds (initState opts) ops, p.1 = itoa p.2 := by
  have h0 : (initState opts).msgID = 0 := rfl
  have hs := runPublishIds_sound ops (initState opts) (by rw [h0]; omega)
  exact ⟨hs.2, hs.2.imp (fun hab => ne_of_lt hab), fun p hp => (hs.1 p hp).2⟩

/-- C6 witness: a concrete interleaved sequence of three publishes with a
connect and a subscribe in between. -/
theorem c6_publish_ids_increasing_witness :
    ((runPublishIds (initState O0) opsW).map Prod.snd).Pairwise (fun a b => a < b)
  ∧ ((runPublishIds (initState O0) opsW).map Prod.snd).Pairwise (fun a b => a ≠ b)
  ∧ ∀ p ∈ runPublishIds (initState O0) opsW, p.1 = itoa p.2 :=
  c6_publish_ids_increasing opsW O0 (by decide)

end FayeWS
